import Mathlib

/-!
Shallow embedding of `src/provider/docker/docker.go` (package `docker` of the
inteleon/traefik repository): the Docker container / swarm discovery provider.

Modelling conventions:
* Go maps are association lists with replace-on-insert semantics
  (`goMapInsert` / `goMapLookup`); a nil Go map and an empty Go map both have
  length 0, so both are the empty list.
* A Go `(value, error)` return is `Except GoError value`, except where the
  source returns a list *and* an error together (`listServices`), which is
  kept as an explicit pair.
* The Docker API client is a record of oracle functions giving the daemon's
  response to each call the code makes; filters passed to a call are part of
  the oracle's argument, so the filter chosen by the code is observable.
* `strconv`, `strings`, `net.ParseCIDR` and the vendored
  `docker/api/types/versions` comparison are standard-library or vendored
  dependencies of the file; they are embedded below following their own
  sources (`parseCIDRHost` models the IPv4 case, the one exercised here).
-/

namespace TraefikDocker

/-- Go `error` values, abstracted to their message. -/
abbrev GoError := String

/-- Go map write `m[k] = v`: replace the value when the key is present,
otherwise append the new binding. -/
def goMapInsert {α : Type} (m : List (String × α)) (k : String) (v : α) :
    List (String × α) :=
  if m.any (fun p => p.1 == k) then
    m.map (fun p => if p.1 == k then (k, v) else p)
  else
    m ++ [(k, v)]

/-- Go map read `m[k]` combined with the presence test (`v, ok := m[k]`). -/
def goMapLookup {α : Type} (m : List (String × α)) (k : String) : Option α :=
  (m.find? (fun p => p.1 == k)).map (fun p => p.2)

/-- `strings.Split` on a one-character separator, on the character list of
the string.  `split "" = [""]`, and a trailing separator yields a trailing
empty field, as in Go. -/
def splitOnChar (c : Char) : List Char → List (List Char)
  | [] => [[]]
  | x :: xs =>
    if x == c then [] :: splitOnChar c xs
    else
      match splitOnChar c xs with
      | [] => [[x]]
      | y :: ys => (x :: y) :: ys

/-- The value of a non-empty all-digit decimal field; `none` when the field
is empty or holds a non-digit. -/
def decimalValue (l : List Char) : Option Nat :=
  match l with
  | [] => none
  | _ =>
    l.foldl
      (fun acc c =>
        match acc with
        | none => none
        | some n => if c.isDigit then some (n * 10 + (c.toNat - 48)) else none)
      (some 0)

/-- Go `strconv.Atoi` with the error discarded, as the version comparator
uses it: an optional sign followed by digits; any malformed input gives 0. -/
def goAtoi (l : List Char) : Int :=
  match l with
  | '+' :: rest =>
    match decimalValue rest with
    | some n => (n : Int)
    | none => 0
  | '-' :: rest =>
    match decimalValue rest with
    | some n => -(n : Int)
    | none => 0
  | _ =>
    match decimalValue l with
    | some n => (n : Int)
    | none => 0

/-- The remaining fields of one side once the other is exhausted, compared
against the implicit zeros: the first field that differs from 0 decides. -/
def compareRest : List (List Char) → Int
  | [] => 0
  | x :: xs =>
    if goAtoi x > 0 then 1
    else if 0 > goAtoi x then -1
    else compareRest xs

/-- The segment loop of `compare` from the vendored
`docker/api/types/versions` package: compare dot-separated fields
numerically, a missing field counting as 0. -/
def compareSegments : List (List Char) → List (List Char) → Int
  | [], ys => -(compareRest ys)
  | x :: xs, [] => compareRest (x :: xs)
  | x :: xs, y :: ys =>
    if goAtoi x > goAtoi y then 1
    else if goAtoi y > goAtoi x then -1
    else compareSegments xs ys

/-- `versions.compare v1 v2` of the vendored Docker API types. -/
def versionCompare (v1 v2 : String) : Int :=
  compareSegments (splitOnChar '.' v1.toList) (splitOnChar '.' v2.toList)

/-- `versions.GreaterThanOrEqualTo v other` = `compare(v, other) >= 0`. -/
def versionGreaterThanOrEqualTo (v other : String) : Bool :=
  decide (0 ≤ versionCompare v other)

/-- The address part of a CIDR string: everything before the first slash,
together with what follows it; `none` when no slash occurs. -/
def splitFirstSlash : List Char → Option (List Char × List Char)
  | [] => none
  | c :: cs =>
    if c == '/' then some ([], cs)
    else
      match splitFirstSlash cs with
      | none => none
      | some (a, b) => some (c :: a, b)

/-- A dotted-quad IPv4 address: exactly four decimal fields, each at
most 255. -/
def parseIPv4 (l : List Char) : Option (Nat × Nat × Nat × Nat) :=
  match splitOnChar '.' l with
  | [a, b, c, d] =>
    match decimalValue a, decimalValue b, decimalValue c, decimalValue d with
    | some w, some x, some y, some z =>
      if w ≤ 255 && x ≤ 255 && y ≤ 255 && z ≤ 255 then some (w, x, y, z) else none
    | _, _, _, _ => none
  | _ => none

/-- The host address returned by `net.ParseCIDR` for IPv4 inputs (the
standard library is outside this repository; the IPv4 case is the one the
provider exercises): the text before the first slash must be a dotted quad
and the text after it a decimal mask of at most 32; on any failure the
parsed IP is nil (`none`). -/
def parseCIDRHost (s : String) : Option (Nat × Nat × Nat × Nat) :=
  match splitFirstSlash s.toList with
  | none => none
  | some (addr, mask) =>
    match parseIPv4 addr, decimalValue mask with
    | some ip, some n => if n ≤ 32 then some ip else none
    | _, _ => none

/-- `(net.IP).String()` as the provider uses it: a nil IP (failed parse)
prints as `"<nil>"`, a parsed IPv4 address as its dotted quad. -/
def ipString : Option (Nat × Nat × Nat × Nat) → String
  | none => "<nil>"
  | some (a, b, c, d) =>
    toString a ++ "." ++ toString b ++ "." ++ toString c ++ "." ++ toString d

/-- `strings.HasPrefix s p`. -/
def goHasPrefix (s p : String) : Bool :=
  p.toList.isPrefixOf s.toList

/-! ## The data model of `docker.go` -/

/-- `networkData` — one resolved network endpoint of a workload instance. -/
structure networkData where
  Name : String := ""
  Addr : String := ""
  Port : Int := 0
  Protocol : String := ""
  ID : String := ""
  deriving DecidableEq, Repr

/-- `networkSettings` — the network part of a discovery record. -/
structure networkSettings where
  NetworkMode : String := ""
  Ports : List (String × String) := []
  Networks : List (String × networkData) := []
  deriving DecidableEq, Repr

/-- `dockerData` — the normalized discovery record. -/
structure dockerData where
  ServiceName : String := ""
  Name : String := ""
  Labels : List (String × String) := []
  NetworkSettings : networkSettings := {}
  Health : String := ""
  Node : Option String := none
  SegmentLabels : List (String × String) := []
  SegmentName : String := ""
  deriving DecidableEq, Repr

/-! ## The daemon API shapes the code reads (standalone side) -/

/-- `container.State.Health` — only the status string is read. -/
structure ContainerHealth where
  Status : String
  deriving DecidableEq, Repr

/-- `container.State` — only the running flag and the health pointer are
read. -/
structure ContainerState where
  Running : Bool
  Health : Option ContainerHealth := none
  deriving DecidableEq, Repr

/-- `container.HostConfig` — only the network mode string is read. -/
structure HostConfig where
  NetworkMode : String
  deriving DecidableEq, Repr

/-- The embedded `ContainerJSONBase` pointer: name, node, host config and
state. -/
structure ContainerJSONBase where
  Name : String
  Node : Option String := none
  HostConfig : Option HostConfig := none
  State : Option ContainerState := none
  deriving DecidableEq, Repr

/-- One entry of `container.NetworkSettings.Networks` — the fields read are
the network ID and the IP address. -/
structure EndpointSettings where
  NetworkID : String
  IPAddress : String
  deriving DecidableEq, Repr

/-- `container.NetworkSettings` — ports and the per-network endpoint map,
both nilable. -/
structure SummaryNetworkSettings where
  Ports : Option (List (String × String)) := none
  Networks : Option (List (String × EndpointSettings)) := none
  deriving DecidableEq, Repr

/-- `container.Config` — only the label map is read. -/
structure ContainerConfig where
  Labels : Option (List (String × String)) := none
  deriving DecidableEq, Repr

/-- `dockertypes.ContainerJSON` as `parseContainer` reads it. -/
structure ContainerJSON where
  ContainerJSONBase : Option ContainerJSONBase := none
  Config : Option ContainerConfig := none
  NetworkSettings : Option SummaryNetworkSettings := none
  deriving DecidableEq, Repr

/-- One element of the `ContainerList` response — only the ID is read. -/
structure ContainerSummary where
  ID : String
  deriving DecidableEq, Repr

/-- The container-side daemon calls made by the code, as oracles. -/
structure ContainerClient where
  ContainerList : Except GoError (List ContainerSummary)
  ContainerInspect : String → Except GoError ContainerJSON

/-! ## The daemon API shapes the code reads (swarm side) -/

/-- `task.Status` — only the state string is read. -/
structure TaskStatus where
  State : String
  deriving DecidableEq, Repr

/-- The `Network` field of a task network attachment — only the ID is
read. -/
structure AttachmentNetwork where
  ID : String
  deriving DecidableEq, Repr

/-- One entry of `task.NetworksAttachments`. -/
structure NetworkAttachment where
  Network : AttachmentNetwork
  Addresses : List String
  deriving DecidableEq, Repr

/-- `swarmtypes.Task` as the code reads it. -/
structure SwarmTask where
  ID : String
  Slot : Int
  Status : TaskStatus
  NetworksAttachments : Option (List NetworkAttachment) := none
  deriving DecidableEq, Repr

/-- One entry of `service.Endpoint.VirtualIPs`. -/
structure EndpointVirtualIP where
  NetworkID : String
  Addr : String
  deriving DecidableEq, Repr

/-- `service.Endpoint` — only the virtual IPs are read. -/
structure SwarmEndpoint where
  VirtualIPs : List EndpointVirtualIP := []
  deriving DecidableEq, Repr

/-- `service.Spec.EndpointSpec` — only the resolution mode is read. -/
structure EndpointSpec where
  Mode : String
  deriving DecidableEq, Repr

/-- `service.Spec.Mode` — the code only tests `Mode.Global != nil`. -/
structure ServiceMode where
  Global : Bool := false
  deriving DecidableEq, Repr

/-- `service.Spec` with the `Annotated` name and label fields flattened in
(the code reads `Spec.Name`/`Spec.Labels` through the embedding). -/
structure ServiceSpec where
  Name : String
  Labels : List (String × String) := []
  Mode : ServiceMode := {}
  EndpointSpec : Option EndpointSpec := none
  deriving DecidableEq, Repr

/-- `swarmtypes.Service` as the code reads it. -/
structure SwarmService where
  ID : String
  Spec : ServiceSpec
  Endpoint : SwarmEndpoint := {}
  deriving DecidableEq, Repr

/-- One entry of the `NetworkList` response — ID and name are read. -/
structure NetworkResource where
  ID : String
  Name : String
  deriving DecidableEq, Repr

/-- The `ServerVersion` response — only the API version string is read. -/
structure ServerVersion where
  APIVersion : String
  deriving DecidableEq, Repr

/-- The two network-list filters the code can build. -/
inductive NetworkListFilter where
  | scopeSwarm
  | driverOverlay
  deriving DecidableEq, Repr

/-- The filter arguments of a `TaskList` call made by the code. -/
structure TaskListFilters where
  service : String
  desiredState : String
  deriving DecidableEq, Repr

/-- The swarm-side daemon calls made by the code, as oracles; the filters
the code builds are the oracles' arguments. -/
structure SwarmClient where
  ServiceList : Except GoError (List SwarmService)
  ServerVersion : Except GoError ServerVersion
  NetworkList : NetworkListFilter → Except GoError (List NetworkResource)
  TaskList : TaskListFilters → Except GoError (List SwarmTask)

/-- `swarmtypes.TaskStateRunning`. -/
def taskStateRunning : String := "running"

/-- `swarmtypes.ResolutionModeVIP`. -/
def resolutionModeVIP : String := "vip"

/-- `swarmtypes.ResolutionModeDNSRR`. -/
def resolutionModeDNSRR : String := "dnsrr"

/-! ## Standalone enumeration -/

/-- `parseContainer` (docker.go:377-416). -/
def parseContainer (container : ContainerJSON) : dockerData :=
  let dData : dockerData := { NetworkSettings := {} }
  let dData :=
    match container.ContainerJSONBase with
    | none => dData
    | some base =>
      let d := { dData with Name := base.Name, ServiceName := base.Name, Node := base.Node }
      let d :=
        match base.HostConfig with
        | none => d
        | some hostConfig =>
          { d with NetworkSettings := { d.NetworkSettings with NetworkMode := hostConfig.NetworkMode } }
      match base.State with
      | none => d
      | some state =>
        match state.Health with
        | none => d
        | some health => { d with Health := health.Status }
  let dData :=
    match container.Config with
    | none => dData
    | some config =>
      match config.Labels with
      | none => dData
      | some labels => { dData with Labels := labels }
  match container.NetworkSettings with
  | none => dData
  | some settings =>
    let dData :=
      match settings.Ports with
      | none => dData
      | some ports =>
        { dData with NetworkSettings := { dData.NetworkSettings with Ports := ports } }
    match settings.Networks with
    | none => dData
    | some networks =>
      { dData with NetworkSettings := { dData.NetworkSettings with
          Networks := networks.foldl
            (fun acc entry =>
              goMapInsert acc entry.1
                { ID := entry.2.NetworkID, Name := entry.1, Addr := entry.2.IPAddress })
            [] } }

/-- `inspectContainers` (docker.go:362-375): inspect one container; produce
its parsed record only when the inspection succeeded and the container is
running, the zero record otherwise. -/
def inspectContainers (dockerClient : ContainerClient) (containerID : String) : dockerData :=
  match dockerClient.ContainerInspect containerID with
  | .error _ => {}
  | .ok containerInspected =>
    match containerInspected.ContainerJSONBase with
    | none => {}
    | some base =>
      match base.State with
      | none => {}
      | some state => if state.Running then parseContainer containerInspected else {}

/-- The body of the container loop of `listContainers` (docker.go:353-358):
inspect the container and keep its record when the name is non-empty. -/
def containerLoopStep (dockerClient : ContainerClient) (acc : List dockerData)
    (container : ContainerSummary) : List dockerData :=
  let dData := inspectContainers dockerClient container.ID
  if 0 < dData.Name.length then acc ++ [dData] else acc

/-- `listContainers` (docker.go:345-360): list, inspect each container, keep
the records with a non-empty name. -/
def listContainers (dockerClient : ContainerClient) : Except GoError (List dockerData) :=
  match dockerClient.ContainerList with
  | .error e => .error e
  | .ok containerList =>
    .ok (containerList.foldl (containerLoopStep dockerClient) [])

/-! ## Swarm enumeration -/

/-- The body of the `VirtualIPs` loop of `parseService` (docker.go:492-509):
drop attachments to unknown networks and empty addresses, otherwise insert
an endpoint whose address is the parsed CIDR host. -/
def vipLoopStep (networkMap : List (String × NetworkResource))
    (acc : List (String × networkData)) (virtualIP : EndpointVirtualIP) :
    List (String × networkData) :=
  match goMapLookup networkMap virtualIP.NetworkID with
  | none => acc
  | some networkService =>
    if 0 < virtualIP.Addr.length then
      let ip := parseCIDRHost virtualIP.Addr
      goMapInsert acc networkService.Name
        { Name := networkService.Name, ID := virtualIP.NetworkID, Addr := ipString ip }
    else acc

/-- `parseService` (docker.go:477-513). -/
def parseService (service : SwarmService)
    (networkMap : List (String × NetworkResource)) : dockerData :=
  let dData : dockerData :=
    { ServiceName := service.Spec.Name
      Name := service.Spec.Name
      Labels := service.Spec.Labels
      NetworkSettings := {} }
  match service.Spec.EndpointSpec with
  | none => dData
  | some endpointSpec =>
    if endpointSpec.Mode == resolutionModeDNSRR then
      dData
    else if endpointSpec.Mode == resolutionModeVIP then
      { dData with NetworkSettings := { dData.NetworkSettings with
          Networks := service.Endpoint.VirtualIPs.foldl (vipLoopStep networkMap) [] } }
    else dData

/-- The body of the inner `Addresses` loop of `parseTasks`
(docker.go:568-576). -/
def taskAddressStep (networkID : String) (networkName : String)
    (acc : List (String × networkData)) (addr : String) :
    List (String × networkData) :=
  let ip := parseCIDRHost addr
  goMapInsert acc networkName { ID := networkID, Name := networkName, Addr := ipString ip }

/-- The body of the `NetworksAttachments` loop of `parseTasks`
(docker.go:564-581): unknown networks are dropped, attachments without
addresses are dropped, each address inserts one endpoint. -/
def taskAttachmentStep (networkMap : List (String × NetworkResource))
    (acc : List (String × networkData)) (virtualIP : NetworkAttachment) :
    List (String × networkData) :=
  match goMapLookup networkMap virtualIP.Network.ID with
  | none => acc
  | some networkService =>
    if 0 < virtualIP.Addresses.length then
      virtualIP.Addresses.foldl (taskAddressStep virtualIP.Network.ID networkService.Name) acc
    else acc

/-- `parseTasks` (docker.go:549-584). -/
def parseTasks (task : SwarmTask) (serviceDockerData : dockerData)
    (networkMap : List (String × NetworkResource)) (isGlobalSvc : Bool) : dockerData :=
  let dData : dockerData :=
    { ServiceName := serviceDockerData.Name
      Name := serviceDockerData.Name ++ "." ++ toString task.Slot
      Labels := serviceDockerData.Labels
      NetworkSettings := {} }
  let dData :=
    if isGlobalSvc then { dData with Name := serviceDockerData.Name ++ "." ++ task.ID }
    else dData
  match task.NetworksAttachments with
  | none => dData
  | some attachments =>
    { dData with NetworkSettings := { dData.NetworkSettings with
        Networks := attachments.foldl (taskAttachmentStep networkMap) [] } }

/-- The body of the task loop of `listTasks` (docker.go:527-545): skip tasks
not actually running, parse the rest, keep only those with at least one
resolved network. -/
def taskRecordStep (serviceDockerData : dockerData)
    (networkMap : List (String × NetworkResource)) (isGlobalSvc : Bool)
    (acc : List dockerData) (task : SwarmTask) : List dockerData :=
  if task.Status.State != taskStateRunning then acc
  else
    let dData := parseTasks task serviceDockerData networkMap isGlobalSvc
    if 0 < dData.NetworkSettings.Networks.length then acc ++ [dData] else acc

/-- `listTasks` (docker.go:515-547): query the tasks of one service with the
`desired-state=running` filter and fold the task loop. -/
def listTasks (dockerClient : SwarmClient) (serviceID : String)
    (serviceDockerData : dockerData) (networkMap : List (String × NetworkResource))
    (isGlobalSvc : Bool) : Except GoError (List dockerData) :=
  match dockerClient.TaskList { service := serviceID, desiredState := "running" } with
  | .error e => .error e
  | .ok taskList =>
    .ok (taskList.foldl (taskRecordStep serviceDockerData networkMap isGlobalSvc) [])

/-- Modelled from the spec: `isBackendLBSwarm` is defined in a file of this
repository that is not under `src/` (only its caller `listServices` is in
`docker.go`).  The spec describes the branch it selects as taken "if the
service's endpoint mode is VIP-resolvable", building the record from the
service's virtual IPs, and otherwise enumerating the service's tasks; we
therefore model the predicate as "the service declares VIP endpoint
resolution".  The source applies it to the freshly parsed record; here it
inspects the service itself, the only datum the spec's wording mentions. -/
def isBackendLBSwarm (service : SwarmService) : Bool :=
  match service.Spec.EndpointSpec with
  | some endpointSpec => endpointSpec.Mode == resolutionModeVIP
  | none => false

/-- The network-list filter chosen by `listServices` (docker.go:430-436)
from the server API version. -/
def networkListArgsFor (apiVersion : String) : NetworkListFilter :=
  if versionGreaterThanOrEqualTo apiVersion "1.29" then .scopeSwarm else .driverOverlay

/-- The body of the service loop of `listServices` (docker.go:453-472).
The accumulator carries the record list together with the Go `err`
variable, which the loop reassigns on every `listTasks` call (and only
there), exactly as the source does. -/
def serviceLoopStep (dockerClient : SwarmClient)
    (networkMap : List (String × NetworkResource))
    (acc : List dockerData × Option GoError) (service : SwarmService) :
    List dockerData × Option GoError :=
  let dData := parseService service networkMap
  if isBackendLBSwarm service then
    if 0 < dData.NetworkSettings.Networks.length then (acc.1 ++ [dData], acc.2)
    else (acc.1, acc.2)
  else
    let isGlobalSvc := service.Spec.Mode.Global
    match listTasks dockerClient service.ID dData networkMap isGlobalSvc with
    | .error e => (acc.1, some e)
    | .ok dockerDataListTasks => (acc.1 ++ dockerDataListTasks, none)

/-- The ID-keyed network map built by `listServices` (docker.go:444-448). -/
def buildNetworkMap (networkList : List NetworkResource) : List (String × NetworkResource) :=
  networkList.foldl (fun m network => goMapInsert m network.ID network) []

/-- `listServices` (docker.go:418-475): list services, pick the network
filter from the server version, build the ID-keyed network map, fold the
service loop, and return the record list together with the final value of
`err` (the source's `return dockerDataList, err`). -/
def listServices (dockerClient : SwarmClient) : List dockerData × Option GoError :=
  match dockerClient.ServiceList with
  | .error e => ([], some e)
  | .ok serviceList =>
    match dockerClient.ServerVersion with
    | .error e => ([], some e)
    | .ok serverVersion =>
      match dockerClient.NetworkList (networkListArgsFor serverVersion.APIVersion) with
      | .error e => ([], some e)
      | .ok networkList =>
        serviceList.foldl (serviceLoopStep dockerClient (buildNetworkMap networkList)) ([], none)

/-! ## The watch loops -/

/-- A lifecycle event as the code reads it: the action string and the actor
ID. -/
structure EventMessage where
  Action : String
  ActorID : String
  deriving DecidableEq, Repr

/-- The standalone watch condition (docker.go:296-298): `start`, `die`, or a
`health_status`-prefixed action. -/
def isStartStopEvent (action : String) : Bool :=
  action == "start" || action == "die" || goHasPrefix action "health_status"

/-- A routing configuration snapshot.  Modelled from the spec: the external
configuration builder is out of scope, and its output is "a full-replacement
list of currently running, normalized instances". -/
structure Configuration where
  records : List dockerData
  deriving DecidableEq, Repr

/-- One message on the configuration channel. -/
structure ConfigMessage where
  ProviderName : String
  Configuration : Configuration
  deriving DecidableEq, Repr

/-- Modelled from the spec: `buildConfiguration` (the external configuration
builder, a method defined outside `src/`) turns the discovery records into a
routing configuration; the spec gives it no failure mode, so it always
produces a configuration — the snapshot of the records it was given. -/
def buildConfiguration (records : List dockerData) : Option Configuration :=
  some { records := records }

/-- The observable outcome of one `startStopHandle` call: the messages sent
on the configuration channel and whether `cancel()` was called. -/
structure HandleResult where
  published : List ConfigMessage
  cancelled : Bool
  deriving DecidableEq, Repr

/-- `startStopHandle` (docker.go:274-290): relist the containers; on failure
cancel the watch context and publish nothing; on success build the
configuration and publish it when it is non-nil. -/
def startStopHandle (dockerClient : ContainerClient) : HandleResult :=
  match listContainers dockerClient with
  | .error _ => { published := [], cancelled := true }
  | .ok containers =>
    match buildConfiguration containers with
    | none => { published := [], cancelled := false }
    | some configuration =>
      { published := [{ ProviderName := "docker", Configuration := configuration }]
        cancelled := false }

/-- The observable outcome of delivering one event to the standalone watch
loop (docker.go:295-300): whether the containers were re-enumerated, what
was published, and whether the context was cancelled. -/
structure EventStepResult where
  relisted : Bool
  published : List ConfigMessage
  cancelled : Bool
  deriving DecidableEq, Repr

/-- One iteration of the standalone event loop (docker.go:295-300): the
handler runs exactly when `isStartStopEvent` holds of the action. -/
def eventLoopStep (dockerClient : ContainerClient) (ev : EventMessage) : EventStepResult :=
  if isStartStopEvent ev.Action then
    let r := startStopHandle dockerClient
    { relisted := true, published := r.published, cancelled := r.cancelled }
  else
    { relisted := false, published := [], cancelled := false }

/-- What one evaluation of the swarm event callback (docker.go:168-236)
decides to do: `proceed` runs `listAndUpdateServices` (re-enumerate and
publish), `retry` sleeps one second and re-evaluates the same event, and
`abandon` returns after logging, handling the event no further. -/
inductive CallbackAction where
  | proceed
  | retry
  | abandon
  deriving DecidableEq, Repr

/-- The pre-running transitional task states of the readiness gate
(docker.go:204-210). -/
def transitionalTaskStates : List String :=
  ["new", "pending", "assigned", "accepted", "preparing", "starting"]

/-- The per-task test of the readiness gate (docker.go:202-215): the task is
not running and its state is one of the transitional states. -/
def taskNotReady (task : SwarmTask) : Bool :=
  task.Status.State != taskStateRunning && transitionalTaskStates.contains task.Status.State

/-- One evaluation of the swarm event callback (docker.go:168-236).  For an
event with an actor ID the running tasks of that service are queried: a
query failure logs and returns, an empty or not-yet-ready task list retries,
and otherwise — as for an event without an actor ID — the full cluster
enumeration runs. -/
def callbackStep (dockerClient : SwarmClient) (msg : EventMessage) : CallbackAction :=
  if msg.ActorID != "" then
    match dockerClient.TaskList { service := msg.ActorID, desiredState := "running" } with
    | .error _ => .abandon
    | .ok taskList =>
      if taskList.isEmpty || taskList.any taskNotReady then .retry else .proceed
  else .proceed

/-! ## Concrete fixtures used by the closed theorems below -/

/-- A swarm client whose task-list query always fails. -/
def c1client : SwarmClient :=
  { ServiceList := .ok []
    ServerVersion := .ok { APIVersion := "1.30" }
    NetworkList := fun _ => .ok []
    TaskList := fun _ => .error "task list query failed" }

/-- A service-scoped event (the actor ID names a service). -/
def c1msg : EventMessage := { Action := "update", ActorID := "svc1" }

/-- Another failing-task-list client, for the amended statement's witness. -/
def c1wclient : SwarmClient :=
  { ServiceList := .ok []
    ServerVersion := .ok { APIVersion := "1.30" }
    NetworkList := fun _ => .ok []
    TaskList := fun _ => .error "boom" }

/-- Another service-scoped event. -/
def c1wmsg : EventMessage := { Action := "create", ActorID := "svc9" }

/-- The single overlay network of several swarm fixtures. -/
def c2net : NetworkResource := { ID := "n1", Name := "ovl" }

/-- A running task of service A attached to the overlay network. -/
def c2taskA : SwarmTask :=
  { ID := "t1"
    Slot := 1
    Status := { State := "running" }
    NetworksAttachments := some [{ Network := { ID := "n1" }, Addresses := ["10.0.0.3/24"] }] }

/-- Service A: no endpoint spec, so its records come from its tasks. -/
def c2svcA : SwarmService := { ID := "svcA", Spec := { Name := "A" } }

/-- Service B, iterated last; its task listing fails. -/
def c2svcB : SwarmService := { ID := "svcB", Spec := { Name := "B" } }

/-- A swarm daemon where the last-iterated service's task listing fails. -/
def c2client : SwarmClient :=
  { ServiceList := .ok [c2svcA, c2svcB]
    ServerVersion := .ok { APIVersion := "1.30" }
    NetworkList := fun _ => .ok [c2net]
    TaskList := fun f =>
      if f.service == "svcA" then .ok [c2taskA] else .error "task listing failed" }

/-- A running container with a name but no network settings at all. -/
def c4json : ContainerJSON :=
  { ContainerJSONBase := some { Name := "/web", State := some { Running := true } } }

/-- A standalone daemon holding only the network-less running container. -/
def c4client : ContainerClient :=
  { ContainerList := .ok [{ ID := "c1" }]
    ContainerInspect := fun _ => .ok c4json }

/-- A swarm daemon with one task-backed service whose task resolves one
network. -/
def c4wclient : SwarmClient :=
  { ServiceList := .ok [c2svcA]
    ServerVersion := .ok { APIVersion := "1.30" }
    NetworkList := fun _ => .ok [c2net]
    TaskList := fun _ => .ok [c2taskA] }

/-- The record `c4wclient` yields: task `t1` of service A. -/
def c4wRecord : dockerData :=
  parseTasks c2taskA (parseService c2svcA [("n1", c2net)]) [("n1", c2net)] false

/-- A running container fixture with one attached network. -/
def c3wjson : ContainerJSON :=
  { ContainerJSONBase := some { Name := "/api", State := some { Running := true } }
    NetworkSettings := some
      { Networks := some [("bridge", { NetworkID := "b1", IPAddress := "172.17.0.2" })] } }

/-- A standalone daemon holding only `c3wjson`. -/
def c3wclient : ContainerClient :=
  { ContainerList := .ok [{ ID := "c9" }]
    ContainerInspect := fun _ => .ok c3wjson }

/-- A swarm daemon for the cluster half of the running-state witness. -/
def c3wswarm : SwarmClient :=
  { ServiceList := .ok [c2svcA]
    ServerVersion := .ok { APIVersion := "1.30" }
    NetworkList := fun _ => .ok [c2net]
    TaskList := fun _ => .ok [c2taskA] }

/-- A DNSRR-mode service with one running task. -/
def c5svc : SwarmService :=
  { ID := "svcD"
    Spec := { Name := "D", EndpointSpec := some { Mode := "dnsrr" } } }

/-- The network map the DNSRR fixtures resolve against. -/
def c5map : List (String × NetworkResource) := [("n1", c2net)]

/-- A running task of the DNSRR service. -/
def c5task : SwarmTask :=
  { ID := "t5"
    Slot := 2
    Status := { State := "running" }
    NetworksAttachments := some [{ Network := { ID := "n1" }, Addresses := ["10.0.1.7/24"] }] }

/-- A swarm daemon serving the DNSRR service's task. -/
def c5client : SwarmClient :=
  { ServiceList := .ok [c5svc]
    ServerVersion := .ok { APIVersion := "1.30" }
    NetworkList := fun _ => .ok [c2net]
    TaskList := fun _ => .ok [c5task] }

/-- A standalone daemon for the ignored-event witness. -/
def c8wclient : ContainerClient :=
  { ContainerList := .ok []
    ContainerInspect := fun _ => .error "unused" }

/-- A non-qualifying event. -/
def c8wmsg : EventMessage := { Action := "restart", ActorID := "" }

/-- A standalone daemon with no containers: relisting succeeds and yields
the empty record set. -/
def c9wclient : ContainerClient :=
  { ContainerList := .ok []
    ContainerInspect := fun _ => .error "unused" }

/-- A qualifying event. -/
def c9wmsg : EventMessage := { Action := "start", ActorID := "" }

/-- The network map of the invalid-CIDR fixtures. -/
def c10map : List (String × NetworkResource) := [("n1", { ID := "n1", Name := "ovl" })]

/-- A virtual IP whose address is not valid CIDR notation. -/
def c10vip : EndpointVirtualIP := { NetworkID := "n1", Addr := "bogus-address" }

/-- A VIP-mode service carrying only the malformed virtual IP. -/
def c10svc : SwarmService :=
  { ID := "svcV"
    Spec := { Name := "V", EndpointSpec := some { Mode := "vip" } }
    Endpoint := { VirtualIPs := [c10vip] } }

/-- A task attachment carrying only a malformed address. -/
def c10att : NetworkAttachment := { Network := { ID := "n1" }, Addresses := ["also/bad/cidr"] }

/-- A task whose only attachment address is malformed. -/
def c10task : SwarmTask :=
  { ID := "tX"
    Slot := 4
    Status := { State := "running" }
    NetworksAttachments := some [c10att] }

/-! ## Helper lemmas -/

/-- The standalone watch condition, spelled propositionally. -/
theorem isStartStopEvent_iff (a : String) :
    isStartStopEvent a = true ↔
      (a = "start" ∨ a = "die" ∨ goHasPrefix a "health_status" = true) := by
  simp [isStartStopEvent, Bool.or_eq_true, beq_iff_eq]
  tauto

/-- An accumulating fold whose step only keeps the accumulator or appends
elements satisfying `P` yields only old elements and `P`-elements. -/
theorem foldl_mem_invariant {α β : Type} (f : List β → α → List β) (P : β → Prop) :
    ∀ l : List α, (∀ acc x d, x ∈ l → d ∈ f acc x → d ∈ acc ∨ P d) →
      ∀ (init : List β) (d : β), d ∈ l.foldl f init → d ∈ init ∨ P d
  | [], _, _, _, h => .inl h
  | x :: xs, hf, init, d, h => by
    rw [List.foldl_cons] at h
    rcases foldl_mem_invariant f P xs
        (fun acc y e hy he => hf acc y e (List.mem_cons_of_mem _ hy) he) (f init x) d h with
      h1 | h2
    · exact hf init x d (List.mem_cons_self x xs) h1
    · exact .inr h2

/-- A record kept by the container loop body came from the accumulator or is
the inspection result of that container, with a non-empty name. -/
theorem containerLoopStep_mem (dockerClient : ContainerClient) (acc : List dockerData)
    (container : ContainerSummary) (d : dockerData)
    (h : d ∈ containerLoopStep dockerClient acc container) :
    d ∈ acc ∨ (d = inspectContainers dockerClient container.ID ∧
      0 < (inspectContainers dockerClient container.ID).Name.length) := by
  simp only [containerLoopStep] at h
  split at h
  next hpos =>
    rcases List.mem_append.mp h with h1 | h2
    · exact .inl h1
    · exact .inr ⟨List.mem_singleton.mp h2, hpos⟩
  next => exact .inl h

/-- An inspection result with a non-empty name passed the whole guard of
`inspectContainers`: the inspection succeeded, the state exists, and the
container is running. -/
theorem inspectContainers_pos_name (dockerClient : ContainerClient) (cid : String)
    (h : 0 < (inspectContainers dockerClient cid).Name.length) :
    ∃ (json : ContainerJSON) (base : ContainerJSONBase) (state : ContainerState),
      dockerClient.ContainerInspect cid = .ok json ∧
      json.ContainerJSONBase = some base ∧ base.State = some state ∧
      state.Running = true ∧ inspectContainers dockerClient cid = parseContainer json := by
  cases hI : dockerClient.ContainerInspect cid with
  | error e =>
    simp only [inspectContainers, hI] at h
    exact absurd h (by decide)
  | ok json =>
    cases hB : json.ContainerJSONBase with
    | none =>
      simp only [inspectContainers, hI, hB] at h
      exact absurd h (by decide)
    | some base =>
      cases hS : base.State with
      | none =>
        simp only [inspectContainers, hI, hB, hS] at h
        exact absurd h (by decide)
      | some state =>
        by_cases hR : state.Running = true
        · exact ⟨json, base, state, rfl, hB, hS, hR,
            by simp only [inspectContainers, hI, hB, hS, hR, if_true]⟩
        · rw [Bool.not_eq_true] at hR
          simp only [inspectContainers, hI, hB, hS, hR, Bool.false_eq_true, if_false] at h
          exact absurd h (by decide)

/-- A record kept by the task loop body came from the accumulator or is the
parse of a task that is actually running and resolved at least one
network. -/
theorem taskRecordStep_mem (sd : dockerData) (m : List (String × NetworkResource)) (g : Bool)
    (acc : List dockerData) (task : SwarmTask) (d : dockerData)
    (h : d ∈ taskRecordStep sd m g acc task) :
    d ∈ acc ∨ (task.Status.State = taskStateRunning ∧ d = parseTasks task sd m g ∧
      0 < (parseTasks task sd m g).NetworkSettings.Networks.length) := by
  simp only [taskRecordStep] at h
  split at h
  next => exact .inl h
  next hrun =>
    split at h
    next hpos =>
      rcases List.mem_append.mp h with h1 | h2
      · exact .inl h1
      · refine .inr ⟨?_, List.mem_singleton.mp h2, hpos⟩
        simpa [bne_iff_ne] using hrun
    next => exact .inl h

/-- Every record of a successful `listTasks` pass comes from a running task
of the `desired-state=running` response and has at least one network. -/
theorem listTasks_mem (dockerClient : SwarmClient) (serviceID : String) (sd : dockerData)
    (m : List (String × NetworkResource)) (g : Bool) (l : List dockerData) (d : dockerData)
    (hok : listTasks dockerClient serviceID sd m g = .ok l) (hd : d ∈ l) :
    ∃ (tl : List SwarmTask) (task : SwarmTask),
      dockerClient.TaskList { service := serviceID, desiredState := "running" } = .ok tl ∧
      task ∈ tl ∧ task.Status.State = taskStateRunning ∧ d = parseTasks task sd m g ∧
      0 < (parseTasks task sd m g).NetworkSettings.Networks.length := by
  cases hT : dockerClient.TaskList { service := serviceID, desiredState := "running" } with
  | error e =>
    rw [listTasks, hT] at hok
    simp at hok
  | ok tl =>
    rw [listTasks, hT] at hok
    simp only [Except.ok.injEq] at hok
    subst hok
    rcases foldl_mem_invariant (taskRecordStep sd m g)
        (fun d => ∃ task, task ∈ tl ∧ task.Status.State = taskStateRunning ∧
          d = parseTasks task sd m g ∧
          0 < (parseTasks task sd m g).NetworkSettings.Networks.length)
        tl
        (fun acc x e hx he => by
          rcases taskRecordStep_mem sd m g acc x e he with h1 | ⟨hr, heq, hlen⟩
          · exact .inl h1
          · exact .inr ⟨x, hx, hr, heq, hlen⟩)
        [] d hd with h1 | ⟨task, htl, hr, heq, hlen⟩
    · exact absurd h1 (List.not_mem_nil d)
    · exact ⟨tl, task, rfl, htl, hr, heq, hlen⟩

/-- A record kept by the service loop body came from the accumulator or has
at least one network. -/
theorem serviceLoopStep_fst_mem (dockerClient : SwarmClient)
    (m : List (String × NetworkResource)) (acc : List dockerData × Option GoError)
    (service : SwarmService) (d : dockerData)
    (h : d ∈ (serviceLoopStep dockerClient m acc service).1) :
    d ∈ acc.1 ∨ 0 < d.NetworkSettings.Networks.length := by
  simp only [serviceLoopStep] at h
  split at h
  next =>
    split at h
    next hpos =>
      rcases List.mem_append.mp h with h1 | h2
      · exact .inl h1
      · exact .inr (List.mem_singleton.mp h2 ▸ hpos)
    next => exact .inl h
  next =>
    split at h
    next e heq => exact .inl h
    next ts heq =>
      rcases List.mem_append.mp h with h1 | h2
      · exact .inl h1
      · rcases listTasks_mem dockerClient service.ID (parseService service m) m
            service.Spec.Mode.Global ts d heq h2 with ⟨tl, task, _, _, _, heqd, hlen⟩
        exact .inr (heqd ▸ hlen)

/-- The service loop only accumulates records with at least one network. -/
theorem serviceLoop_foldl_mem (dockerClient : SwarmClient)
    (m : List (String × NetworkResource)) :
    ∀ (l : List SwarmService) (acc : List dockerData × Option GoError) (d : dockerData),
      d ∈ (l.foldl (serviceLoopStep dockerClient m) acc).1 →
      d ∈ acc.1 ∨ 0 < d.NetworkSettings.Networks.length
  | [], _, _, h => .inl h
  | s :: ss, acc, d, h => by
    rw [List.foldl_cons] at h
    rcases serviceLoop_foldl_mem dockerClient m ss (serviceLoopStep dockerClient m acc s) d h with
      h1 | h2
    · exact serviceLoopStep_fst_mem dockerClient m acc s d h1
    · exact .inr h2

/-- A Go map insert never yields the empty map. -/
theorem goMapInsert_ne_nil {α : Type} (m : List (String × α)) (k : String) (v : α) :
    goMapInsert m k v ≠ [] := by
  unfold goMapInsert
  split
  next hany =>
    cases m with
    | nil => simp at hany
    | cons p ps => simp
  next => simp

/-- A virtual IP whose network resolves and whose address is non-empty makes
the VIP loop body insert an endpoint (whatever the CIDR parse yields). -/
theorem vipLoopStep_eq_insert (m : List (String × NetworkResource))
    (acc : List (String × networkData)) (vip : EndpointVirtualIP) (ns : NetworkResource)
    (hns : goMapLookup m vip.NetworkID = some ns) (haddr : 0 < vip.Addr.length) :
    vipLoopStep m acc vip =
      goMapInsert acc ns.Name
        { Name := ns.Name, ID := vip.NetworkID, Addr := ipString (parseCIDRHost vip.Addr) } := by
  simp only [vipLoopStep, hns]
  rw [if_pos haddr]

/-- The VIP loop body never empties a non-empty accumulator. -/
theorem vipLoopStep_ne_nil_preserve (m : List (String × NetworkResource))
    (acc : List (String × networkData)) (vip : EndpointVirtualIP) (h : acc ≠ []) :
    vipLoopStep m acc vip ≠ [] := by
  simp only [vipLoopStep]
  split
  next => exact h
  next ns heq =>
    split
    next => exact goMapInsert_ne_nil _ _ _
    next => exact h

/-- The VIP loop keeps a non-empty accumulator non-empty. -/
theorem vipLoop_foldl_preserve (m : List (String × NetworkResource)) :
    ∀ (l : List EndpointVirtualIP) (acc : List (String × networkData)), acc ≠ [] →
      l.foldl (vipLoopStep m) acc ≠ []
  | [], _, h => h
  | vip :: vips, acc, h => by
    rw [List.foldl_cons]
    exact vipLoop_foldl_preserve m vips _ (vipLoopStep_ne_nil_preserve m acc vip h)

/-- If some virtual IP of the list resolves its network and has a non-empty
address, the VIP loop yields a non-empty endpoint map. -/
theorem vipLoop_foldl_ne_nil (m : List (String × NetworkResource)) :
    ∀ (l : List EndpointVirtualIP) (acc : List (String × networkData))
      (vip : EndpointVirtualIP) (ns : NetworkResource), vip ∈ l →
      goMapLookup m vip.NetworkID = some ns → 0 < vip.Addr.length →
      l.foldl (vipLoopStep m) acc ≠ []
  | [], _, _, _, hmem, _, _ => absurd hmem (List.not_mem_nil _)
  | x :: xs, acc, vip, ns, hmem, hns, haddr => by
    rw [List.foldl_cons]
    rcases List.mem_cons.mp hmem with heq | hmem2
    · subst heq
      refine vipLoop_foldl_preserve m xs _ ?_
      rw [vipLoopStep_eq_insert m acc vip ns hns haddr]
      exact goMapInsert_ne_nil _ _ _
    · exact vipLoop_foldl_ne_nil m xs (vipLoopStep m acc x) vip ns hmem2 hns haddr

/-- The per-address loop of a task attachment yields a non-empty map when it
starts non-empty or processes at least one address. -/
theorem taskAddress_foldl_ne_nil (netID netName : String) :
    ∀ (addrs : List String) (acc : List (String × networkData)),
      (acc ≠ [] ∨ addrs ≠ []) → addrs.foldl (taskAddressStep netID netName) acc ≠ []
  | [], acc, h => by
    rcases h with h | h
    · exact h
    · exact absurd rfl h
  | a :: rest, acc, _ => by
    rw [List.foldl_cons]
    refine taskAddress_foldl_ne_nil netID netName rest _ (.inl ?_)
    simp only [taskAddressStep]
    exact goMapInsert_ne_nil _ _ _

/-- The attachment loop body never empties a non-empty accumulator. -/
theorem taskAttachmentStep_ne_nil_preserve (m : List (String × NetworkResource))
    (acc : List (String × networkData)) (att : NetworkAttachment) (h : acc ≠ []) :
    taskAttachmentStep m acc att ≠ [] := by
  simp only [taskAttachmentStep]
  split
  next => exact h
  next ns heq =>
    split
    next => exact taskAddress_foldl_ne_nil _ _ _ _ (.inl h)
    next => exact h

/-- The attachment loop keeps a non-empty accumulator non-empty. -/
theorem taskAttachment_foldl_preserve (m : List (String × NetworkResource)) :
    ∀ (l : List NetworkAttachment) (acc : List (String × networkData)), acc ≠ [] →
      l.foldl (taskAttachmentStep m) acc ≠ []
  | [], _, h => h
  | x :: xs, acc, h => by
    rw [List.foldl_cons]
    exact taskAttachment_foldl_preserve m xs _ (taskAttachmentStep_ne_nil_preserve m acc x h)

/-- If some attachment of the list resolves its network and carries at least
one address, the attachment loop yields a non-empty endpoint map. -/
theorem taskAttachment_foldl_ne_nil (m : List (String × NetworkResource)) :
    ∀ (l : List NetworkAttachment) (acc : List (String × networkData))
      (att : NetworkAttachment) (ns : NetworkResource), att ∈ l →
      goMapLookup m att.Network.ID = some ns → att.Addresses ≠ [] →
      l.foldl (taskAttachmentStep m) acc ≠ []
  | [], _, _, _, hmem, _, _ => absurd hmem (List.not_mem_nil _)
  | x :: xs, acc, att, ns, hmem, hns, haddr => by
    rw [List.foldl_cons]
    rcases List.mem_cons.mp hmem with heq | hmem2
    · subst heq
      refine taskAttachment_foldl_preserve m xs _ ?_
      simp only [taskAttachmentStep, hns]
      rw [if_pos (List.length_pos.mpr haddr)]
      exact taskAddress_foldl_ne_nil _ _ _ _ (.inr haddr)
    · exact taskAttachment_foldl_ne_nil m xs (taskAttachmentStep m acc x) att ns hmem2 hns haddr

/-! ## Claim theorems -/

/-- C6: a task record of a replicated (non-global) service is named
`serviceName.slot`; a task record of a global-mode service is named
`serviceName.taskID`. -/
theorem task_record_naming (task : SwarmTask) (sd : dockerData)
    (m : List (String × NetworkResource)) :
    (parseTasks task sd m false).Name = sd.Name ++ "." ++ toString task.Slot
    ∧ (parseTasks task sd m true).Name = sd.Name ++ "." ++ task.ID := by
  cases h : task.NetworksAttachments <;> simp [parseTasks, h]

/-- C7: the network-list filter is selected purely from the server API
version with threshold 1.29 — `driver=overlay` below it (e.g. "1.28"),
`scope=swarm` at or above it (e.g. "1.30"). -/
theorem network_filter_threshold :
    networkListArgsFor "1.28" = NetworkListFilter.driverOverlay
    ∧ networkListArgsFor "1.30" = NetworkListFilter.scopeSwarm
    ∧ ∀ v : String,
        (versionGreaterThanOrEqualTo v "1.29" = true →
          networkListArgsFor v = NetworkListFilter.scopeSwarm)
        ∧ (versionGreaterThanOrEqualTo v "1.29" = false →
          networkListArgsFor v = NetworkListFilter.driverOverlay) := by
  refine ⟨by decide, by decide, fun v => ⟨fun h => ?_, fun h => ?_⟩⟩
  · simp [networkListArgsFor, h]
  · simp [networkListArgsFor, h]

/-- C7 witness: at version "1.31" the new-style swarm-scope filter is
selected. -/
theorem network_filter_threshold_witness :
    networkListArgsFor "1.31" = NetworkListFilter.scopeSwarm :=
  (network_filter_threshold.2.2 "1.31").1 (by decide)

/-- C8: in the standalone watch loop an event triggers re-enumeration iff
its action is exactly "start", exactly "die", or carries the
"health_status" prefix; any other action is ignored — no re-listing, no
publish, no cancellation. -/
theorem standalone_event_filter (dockerClient : ContainerClient) (ev : EventMessage) :
    ((eventLoopStep dockerClient ev).relisted = true ↔
      (ev.Action = "start" ∨ ev.Action = "die" ∨ goHasPrefix ev.Action "health_status" = true))
    ∧ (isStartStopEvent ev.Action = false →
        eventLoopStep dockerClient ev = { relisted := false, published := [], cancelled := false }) := by
  constructor
  · rw [← isStartStopEvent_iff]
    by_cases h : isStartStopEvent ev.Action = true
    · simp [eventLoopStep, h]
    · rw [Bool.not_eq_true] at h
      simp [eventLoopStep, h]
  · intro h
    simp [eventLoopStep, h]

/-- C8 witness: a "restart" event is ignored by the standalone watch
loop. -/
theorem standalone_event_filter_witness :
    eventLoopStep c8wclient c8wmsg = { relisted := false, published := [], cancelled := false } :=
  (standalone_event_filter c8wclient c8wmsg).2 (by decide)

/-- C1 counterexample: with a service-scoped event whose task-list query
fails, the callback abandons the event instead of proceeding to the full
cluster re-enumeration. -/
theorem callback_tasklist_failure_counterexample :
    callbackStep c1client c1msg = CallbackAction.abandon
    ∧ CallbackAction.abandon ≠ CallbackAction.proceed :=
  ⟨rfl, by decide⟩

/-- C1 amended: whenever the per-service task-list query of the swarm event
callback fails, the callback logs and returns, abandoning the event — no
re-enumeration and no publish happen for it. -/
theorem callback_tasklist_failure_abandons (dockerClient : SwarmClient)
    (msg : EventMessage) (e : GoError)
    (hid : msg.ActorID ≠ "")
    (hq : dockerClient.TaskList { service := msg.ActorID, desiredState := "running" } = .error e) :
    callbackStep dockerClient msg = CallbackAction.abandon := by
  simp [callbackStep, bne_iff_ne, hid, hq]

/-- C1 witness: the amended statement at a concrete failing client. -/
theorem callback_tasklist_failure_witness :
    callbackStep c1wclient c1wmsg = CallbackAction.abandon :=
  callback_tasklist_failure_abandons c1wclient c1wmsg "boom" (by decide) rfl

/-- C2 (evaluation at the failing input): when the last-iterated service's
task listing fails, `listServices` still returns the other services'
records, but together with the non-nil error of that last `listTasks`
call — the caller then treats the whole pass as failed. -/
theorem last_service_task_failure_fails_pass :
    (listServices c2client).1.map (fun d => d.Name) = ["A.1"]
    ∧ (listServices c2client).2 = some "task listing failed" :=
  ⟨rfl, rfl⟩

/-- C3: every emitted record is for a running workload — a standalone
record only exists when the inspection succeeded, a state is present and
its Running flag is set; a cluster task record only exists for a task of
the `desired-state=running` query response whose actual state is
running. -/
theorem records_only_for_running :
    (∀ (dockerClient : ContainerClient) (l : List dockerData) (d : dockerData),
        listContainers dockerClient = .ok l → d ∈ l →
        ∃ (cl : List ContainerSummary) (container : ContainerSummary)
          (json : ContainerJSON) (base : ContainerJSONBase) (state : ContainerState),
          dockerClient.ContainerList = .ok cl ∧ container ∈ cl ∧
          dockerClient.ContainerInspect container.ID = .ok json ∧
          json.ContainerJSONBase = some base ∧ base.State = some state ∧
          state.Running = true ∧ d = parseContainer json)
    ∧ (∀ (dockerClient : SwarmClient) (serviceID : String) (sd : dockerData)
          (m : List (String × NetworkResource)) (g : Bool) (l : List dockerData) (d : dockerData),
        listTasks dockerClient serviceID sd m g = .ok l → d ∈ l →
        ∃ (tl : List SwarmTask) (task : SwarmTask),
          dockerClient.TaskList { service := serviceID, desiredState := "running" } = .ok tl ∧
          task ∈ tl ∧ task.Status.State = taskStateRunning ∧ d = parseTasks task sd m g) := by
  constructor
  · intro dockerClient l d hok hd
    cases hL : dockerClient.ContainerList with
    | error e =>
      rw [listContainers, hL] at hok
      simp at hok
    | ok cl =>
      rw [listContainers, hL] at hok
      simp only [Except.ok.injEq] at hok
      subst hok
      rcases foldl_mem_invariant (containerLoopStep dockerClient)
          (fun d => ∃ container, container ∈ cl ∧
            d = inspectContainers dockerClient container.ID ∧
            0 < (inspectContainers dockerClient container.ID).Name.length)
          cl
          (fun acc x e hx he => by
            rcases containerLoopStep_mem dockerClient acc x e he with h1 | ⟨heq, hpos⟩
            · exact .inl h1
            · exact .inr ⟨x, hx, heq, hpos⟩)
          [] d hd with h1 | ⟨container, hcl, heqd, hpos⟩
      · exact absurd h1 (List.not_mem_nil d)
      · rcases inspectContainers_pos_name dockerClient container.ID hpos with
          ⟨json, base, state, hI, hB, hS, hR, hiq⟩
        exact ⟨cl, container, json, base, state, rfl, hcl, hI, hB, hS, hR, heqd.trans hiq⟩
  · intro dockerClient serviceID sd m g l d hok hd
    rcases listTasks_mem dockerClient serviceID sd m g l d hok hd with
      ⟨tl, task, hT, htl, hr, heq, _⟩
    exact ⟨tl, task, hT, htl, hr, heq⟩

/-- C3 witness: both halves at concrete daemons — a running container and a
running task each yield their record together with the running evidence. -/
theorem records_only_for_running_witness :
    (∃ (cl : List ContainerSummary) (container : ContainerSummary)
       (json : ContainerJSON) (base : ContainerJSONBase) (state : ContainerState),
       c3wclient.ContainerList = .ok cl ∧ container ∈ cl ∧
       c3wclient.ContainerInspect container.ID = .ok json ∧
       json.ContainerJSONBase = some base ∧ base.State = some state ∧
       state.Running = true ∧ parseContainer c3wjson = parseContainer json)
    ∧ (∃ (tl : List SwarmTask) (task : SwarmTask),
       c3wswarm.TaskList { service := "svcA", desiredState := "running" } = .ok tl ∧
       task ∈ tl ∧ task.Status.State = taskStateRunning ∧
       c4wRecord = parseTasks task (parseService c2svcA [("n1", c2net)]) [("n1", c2net)] false) := by
  constructor
  · exact records_only_for_running.1 c3wclient [parseContainer c3wjson]
      (parseContainer c3wjson) rfl (List.mem_singleton.mpr rfl)
  · exact records_only_for_running.2 c3wswarm "svcA" (parseService c2svcA [("n1", c2net)])
      [("n1", c2net)] false [c4wRecord] c4wRecord rfl (List.mem_singleton.mpr rfl)

/-- C4 counterexample: the standalone path emits a record for a running,
named container that has no network settings — a record with an empty
network map, which the claim says is never emitted. -/
theorem standalone_empty_networks_counterexample :
    listContainers c4client = .ok [parseContainer c4json]
    ∧ (parseContainer c4json).NetworkSettings.Networks = []
    ∧ 0 < (parseContainer c4json).Name.length :=
  ⟨rfl, rfl, by decide⟩

/-- C4 amended: the zero-network exclusion holds on the cluster enumeration
paths — every record returned by `listServices` (whether from a VIP-mode
service or from a task) has at least one resolved network; the standalone
container path performs no such check. -/
theorem cluster_records_have_networks (dockerClient : SwarmClient) (d : dockerData)
    (h : d ∈ (listServices dockerClient).1) :
    0 < d.NetworkSettings.Networks.length := by
  unfold listServices at h
  split at h
  next => simp at h
  next =>
    split at h
    next => simp at h
    next =>
      split at h
      next => simp at h
      next networkList heq =>
        rcases serviceLoop_foldl_mem _ _ _ ([], none) d h with h1 | h2
        · simp at h1
        · exact h2

/-- C4 witness: the one record of the concrete swarm daemon has a
network. -/
theorem cluster_records_have_networks_witness :
    0 < c4wRecord.NetworkSettings.Networks.length :=
  cluster_records_have_networks c4wclient c4wRecord (by decide)

/-- C5: a DNSRR-mode service gets no service-level networks from
`parseService`, is not handled by the service-level branch, and its loop
step reduces to the per-task path: its running tasks are listed and their
records appended (on task-listing failure the error is recorded instead). -/
theorem dnsrr_falls_through_to_tasks (service : SwarmService)
    (m : List (String × NetworkResource)) (es : EndpointSpec)
    (hes : service.Spec.EndpointSpec = some es) (hmode : es.Mode = resolutionModeDNSRR) :
    (parseService service m).NetworkSettings.Networks = []
    ∧ isBackendLBSwarm service = false
    ∧ ∀ (dockerClient : SwarmClient) (acc : List dockerData × Option GoError),
        serviceLoopStep dockerClient m acc service =
          match listTasks dockerClient service.ID (parseService service m) m
              service.Spec.Mode.Global with
          | .error e => (acc.1, some e)
          | .ok ts => (acc.1 ++ ts, none) := by
  have h2 : isBackendLBSwarm service = false := by
    simp [isBackendLBSwarm, hes, hmode, resolutionModeDNSRR, resolutionModeVIP]
  refine ⟨?_, h2, fun dockerClient acc => ?_⟩
  · simp [parseService, hes, hmode]
  · simp only [serviceLoopStep, h2, Bool.false_eq_true, if_false]

/-- C5 witness: the concrete DNSRR service yields no service-level networks
and its loop step returns exactly its one task record. -/
theorem dnsrr_falls_through_witness :
    (parseService c5svc c5map).NetworkSettings.Networks = []
    ∧ serviceLoopStep c5client c5map ([], none) c5svc =
        ([parseTasks c5task (parseService c5svc c5map) c5map false], none) := by
  have h := dnsrr_falls_through_to_tasks c5svc c5map { Mode := "dnsrr" } rfl rfl
  refine ⟨h.1, ?_⟩
  rw [h.2.2 c5client ([], none)]
  rfl

/-- C9: after a qualifying event whose container relisting succeeds, exactly
one snapshot is published — even when it is empty — and the watch context is
not cancelled (with the spec-modelled external builder, which always yields
a configuration). -/
theorem qualifying_event_publishes (dockerClient : ContainerClient) (ev : EventMessage)
    (containers : List dockerData)
    (hq : isStartStopEvent ev.Action = true)
    (hl : listContainers dockerClient = .ok containers) :
    eventLoopStep dockerClient ev =
      { relisted := true
        published := [{ ProviderName := "docker", Configuration := { records := containers } }]
        cancelled := false } := by
  simp [eventLoopStep, hq, startStopHandle, hl, buildConfiguration]

/-- C9 witness: an empty snapshot is still published after a "start"
event. -/
theorem qualifying_event_publishes_witness :
    eventLoopStep c9wclient c9wmsg =
      { relisted := true
        published := [{ ProviderName := "docker", Configuration := { records := [] } }]
        cancelled := false } :=
  qualifying_event_publishes c9wclient c9wmsg [] (by decide) rfl

/-- C10: an attachment address that is non-empty but not valid CIDR is
silently tolerated — the VIP loop and the task address loop still insert an
endpoint for that network whose address is `"<nil>"` (the string form of the
nil parsed IP), and the instance counts as having a resolved network (its
endpoint map is non-empty) rather than being excluded. -/
theorem invalid_cidr_still_resolves :
    (∀ (m : List (String × NetworkResource)) (acc : List (String × networkData))
        (vip : EndpointVirtualIP) (ns : NetworkResource),
        goMapLookup m vip.NetworkID = some ns → 0 < vip.Addr.length →
        parseCIDRHost vip.Addr = none →
        vipLoopStep m acc vip =
          goMapInsert acc ns.Name { Name := ns.Name, ID := vip.NetworkID, Addr := "<nil>" })
    ∧ (∀ (service : SwarmService) (m : List (String × NetworkResource)) (es : EndpointSpec)
        (vip : EndpointVirtualIP) (ns : NetworkResource),
        service.Spec.EndpointSpec = some es → es.Mode = resolutionModeVIP →
        vip ∈ service.Endpoint.VirtualIPs →
        goMapLookup m vip.NetworkID = some ns → 0 < vip.Addr.length →
        (parseService service m).NetworkSettings.Networks ≠ [])
    ∧ (∀ (netID netName : String) (acc : List (String × networkData)) (addr : String),
        parseCIDRHost addr = none →
        taskAddressStep netID netName acc addr =
          goMapInsert acc netName { ID := netID, Name := netName, Addr := "<nil>" })
    ∧ (∀ (task : SwarmTask) (sd : dockerData) (m : List (String × NetworkResource)) (g : Bool)
        (atts : List NetworkAttachment) (att : NetworkAttachment) (ns : NetworkResource),
        task.NetworksAttachments = some atts → att ∈ atts →
        goMapLookup m att.Network.ID = some ns → att.Addresses ≠ [] →
        (parseTasks task sd m g).NetworkSettings.Networks ≠ []) := by
  refine ⟨?_, ?_, ?_, ?_⟩
  · intro m acc vip ns hns haddr hcidr
    rw [vipLoopStep_eq_insert m acc vip ns hns haddr, hcidr]
    rfl
  · intro service m es vip ns hes hmode hmem hns haddr
    simp only [parseService, hes, hmode]
    simp only [resolutionModeDNSRR, resolutionModeVIP, beq_iff_eq, String.reduceEq,
      if_false, if_true, reduceIte]
    exact vipLoop_foldl_ne_nil m service.Endpoint.VirtualIPs [] vip ns hmem hns haddr
  · intro netID netName acc addr hcidr
    simp only [taskAddressStep, hcidr]
    rfl
  · intro task sd m g atts att ns hatts hmem hns haddr
    simp only [parseTasks, hatts]
    exact taskAttachment_foldl_ne_nil m atts [] att ns hmem hns haddr

/-- C10 witness: concrete malformed addresses produce `"<nil>"` endpoints
and the carrying instances count as resolved. -/
theorem invalid_cidr_still_resolves_witness :
    vipLoopStep c10map [] c10vip =
      goMapInsert [] "ovl" { Name := "ovl", ID := "n1", Addr := "<nil>" }
    ∧ (parseService c10svc c10map).NetworkSettings.Networks ≠ []
    ∧ taskAddressStep "n1" "ovl" [] "also/bad/cidr" =
        goMapInsert [] "ovl" { ID := "n1", Name := "ovl", Addr := "<nil>" }
    ∧ (parseTasks c10task {} c10map false).NetworkSettings.Networks ≠ [] := by
  refine ⟨?_, ?_, ?_, ?_⟩
  · exact invalid_cidr_still_resolves.1 c10map [] c10vip { ID := "n1", Name := "ovl" }
      rfl (by decide) (by decide)
  · exact invalid_cidr_still_resolves.2.1 c10svc c10map { Mode := "vip" } c10vip
      { ID := "n1", Name := "ovl" } rfl rfl (by decide) rfl (by decide)
  · exact invalid_cidr_still_resolves.2.2.1 "n1" "ovl" [] "also/bad/cidr" (by decide)
  · exact invalid_cidr_still_resolves.2.2.2 c10task {} c10map false [c10att] c10att
      { ID := "n1", Name := "ovl" } rfl (by decide) rfl (by decide)

end TraefikDocker
